import Mathlib

/-!
Verification of the GalleVR Windows native-embedder layer
(`windows/runner/flutter_window.cpp` and
`windows/flutter/generated_plugin_registrant.cc`) against its
natural-language specification.

The two C++ source files are shallowly embedded as pure Lean functions.
External collaborators (the Win32 base window, the Flutter engine, the key
state query) are modelled as boolean/optional inputs; the observable side
effects of each routine are recorded as an explicit event trace.  A null
pointer dereference (undefined behavior in C++) is modelled by an `Option`
result being `none`.
-/

/-- The `flutter::FlutterViewController` owned by the window, abstracted to
whether its `engine()` accessor and its `view()` accessor return non-null
handles (these are the only facts about the controller the runner code
branches on). -/
structure FlutterViewController where
  engineValid : Bool
  viewValid : Bool
  deriving DecidableEq, Repr

/-- Steps performed by `FlutterWindow::OnCreate`, in the order the C++ code
executes them. -/
inductive CreateStep where
  | baseCreate
  | getClientArea
  | constructController
  | registerPlugins
  | setChildContent
  | setNextFrameCallback
  | forceRedraw
  deriving DecidableEq, Repr

/-- Result of `FlutterWindow::OnCreate`: the boolean returned to the caller,
the value of the `flutter_controller_` member afterwards, and the trace of
steps executed. -/
structure CreateResult where
  ret : Bool
  flutter_controller : Option FlutterViewController
  steps : List CreateStep
  deriving DecidableEq, Repr

/-- Shallow embedding of `FlutterWindow::OnCreate`
(`flutter_window.cpp`, lines 14–54).

Inputs model the external collaborators: `args` is
`project_.dart_entrypoint_arguments()` (captured by the next-frame
callback, not inspected by `OnCreate` itself), `baseOk` the result of
`Win32Window::OnCreate()`, and `engineValid`/`viewValid` whether the
freshly constructed controller's `engine()` and `view()` handles are
non-null.  The C++ code:
  - returns `false` when base creation fails;
  - constructs the controller, then returns `false` when
    `!flutter_controller_->engine() || !flutter_controller_->view()`
    (note: the controller stays stored in `flutter_controller_`);
  - otherwise registers plugins, attaches child content, registers the
    next-frame callback, forces a redraw, and returns `true`. -/
def OnCreate (args : List String) (baseOk engineValid viewValid : Bool) :
    CreateResult :=
  let _ := args
  if !baseOk then
    { ret := false, flutter_controller := none, steps := [CreateStep.baseCreate] }
  else
    let ctrl : FlutterViewController := ⟨engineValid, viewValid⟩
    if !engineValid || !viewValid then
      { ret := false
        flutter_controller := some ctrl
        steps := [CreateStep.baseCreate, CreateStep.getClientArea,
                  CreateStep.constructController] }
    else
      { ret := true
        flutter_controller := some ctrl
        steps := [CreateStep.baseCreate, CreateStep.getClientArea,
                  CreateStep.constructController, CreateStep.registerPlugins,
                  CreateStep.setChildContent, CreateStep.setNextFrameCallback,
                  CreateStep.forceRedraw] }

/-- The `start_minimized` scan in the next-frame callback
(`flutter_window.cpp`, lines 33–40): iterate over the arguments, set the
flag and break at the first argument equal to `"--start-minimized"`. -/
def start_minimized : List String → Bool
  | [] => false
  | arg :: rest => if arg = "--start-minimized" then true else start_minimized rest

/-- Actions the next-frame callback can perform on the window. -/
inductive CBAction where
  | showWindow
  deriving DecidableEq, Repr

/-- Shallow embedding of the lambda registered via `SetNextFrameCallback`
(`flutter_window.cpp`, lines 32–45): scan the dart entrypoint arguments for
`"--start-minimized"`; call `this->Show()` iff the flag was not found. -/
def firstFrameCallback (args : List String) : List CBAction :=
  if start_minimized args then [] else [CBAction.showWindow]

/-- Modelled from the spec: `Win32Window::Show` is not part of this
fragment.  Per the spec the window starts hidden and "the window becomes
visible after first frame" exactly when the callback calls Show; so the
window is visible after the first frame iff the callback performed the
`showWindow` action. -/
def windowVisibleAfterFirstFrame (args : List String) : Bool :=
  (firstFrameCallback args).contains CBAction.showWindow

/-- Steps performed by `FlutterWindow::OnDestroy`. -/
inductive DestroyStep where
  | resetController
  | baseDestroy
  deriving DecidableEq, Repr

/-- Shallow embedding of `FlutterWindow::OnDestroy`
(`flutter_window.cpp`, lines 56–62): if `flutter_controller_` is non-null,
set it to `nullptr`; then call `Win32Window::OnDestroy()`.  The result is
the trace of steps executed. -/
def OnDestroy (ctrl : Option FlutterViewController) : List DestroyStep :=
  (if ctrl.isSome then [DestroyStep.resetController] else [])
    ++ [DestroyStep.baseDestroy]

/-- Effect of one destroy step on the `flutter_controller_` member:
`resetController` assigns `nullptr`; `baseDestroy` does not touch it. -/
def applyDestroyStep (c : Option FlutterViewController) :
    DestroyStep → Option FlutterViewController
  | DestroyStep.resetController => none
  | DestroyStep.baseDestroy => c

/-- The value of `flutter_controller_` after executing a list of destroy
steps starting from `c`. -/
def ctrlAfterSteps (c : Option FlutterViewController)
    (steps : List DestroyStep) : Option FlutterViewController :=
  steps.foldl applyDestroyStep c

/-- `WM_CLOSE` message identifier. -/
def WM_CLOSE : Nat := 0x0010

/-- `WM_FONTCHANGE` message identifier. -/
def WM_FONTCHANGE : Nat := 0x001D

/-- Observable events of `FlutterWindow::MessageHandler`:
offering the message to the engine's top-level handler, asking the engine
to reload system fonts, invoking a method on a method channel (recording
channel name, method name, whether arguments were passed and whether a
result handler was passed), and delegating to the base default handler. -/
inductive MHEvent where
  | engineTopLevel
  | engineReloadFonts
  | channelInvoke (channel method : String) (hasArgs hasResultHandler : Bool)
  | baseDefault
  deriving DecidableEq, Repr

/-- Shallow embedding of `FlutterWindow::MessageHandler`
(`flutter_window.cpp`, lines 64–104).

Inputs: `ctrl` is the current `flutter_controller_` member;
`engineHandled` the optional `LRESULT` returned by
`HandleTopLevelWindowProc` when the controller is non-null (ignored
otherwise, since the call is guarded by `if (flutter_controller_)`);
`altHeld` models `GetAsyncKeyState(VK_MENU) & 0x8000`; `message` the
window message; `baseResult` the value `Win32Window::MessageHandler`
returns.

Result: `some (returnValue, events)` on a defined execution, `none` when
the C++ code dereferences a null pointer (undefined behavior) — which
happens in the `WM_FONTCHANGE` case, where
`flutter_controller_->engine()->ReloadSystemFonts()` is executed without
any null check on `flutter_controller_` or on the engine handle. -/
def MessageHandler (ctrl : Option FlutterViewController)
    (engineHandled : Option Int) (altHeld : Bool) (message : Nat)
    (baseResult : Int) : Option (Int × List MHEvent) :=
  let ev0 : List MHEvent :=
    match ctrl with
    | some _ => [MHEvent.engineTopLevel]
    | none => []
  match ctrl, engineHandled with
  | some _, some r => some (r, ev0)
  | _, _ =>
    if message = WM_FONTCHANGE then
      match ctrl with
      | none => none
      | some c =>
        if c.engineValid then
          some (baseResult, ev0 ++ [MHEvent.engineReloadFonts, MHEvent.baseDefault])
        else
          none
    else if message = WM_CLOSE then
      if altHeld then
        some (baseResult, ev0 ++ [MHEvent.baseDefault])
      else
        match ctrl with
        | some c =>
          if c.engineValid then
            some (baseResult,
              ev0 ++ [MHEvent.channelInvoke "gallevr/window" "onWindowHidden"
                        false false,
                      MHEvent.baseDefault])
          else
            some (baseResult, ev0 ++ [MHEvent.baseDefault])
        | none => some (baseResult, ev0 ++ [MHEvent.baseDefault])
    else
      some (baseResult, ev0 ++ [MHEvent.baseDefault])

/-- Whether an `MHEvent` is a method-channel invocation. -/
def MHEvent.isChannelInvoke : MHEvent → Bool
  | MHEvent.channelInvoke _ _ _ _ => true
  | _ => false

/-- Number of method-channel invocations in a `MessageHandler` outcome
(an undefined execution counts none). -/
def invokeCount : Option (Int × List MHEvent) → Nat
  | none => 0
  | some (_, evs) => evs.countP (fun e => e.isChannelInvoke)

/-- One plugin registration in `RegisterPlugins`: the exact name passed to
`GetRegistrarForPlugin` and the registration entry point called with the
resulting registrar. -/
structure PluginCall where
  registrarName : String
  entryPoint : String
  deriving DecidableEq, Repr

/-- Shallow embedding of `RegisterPlugins`
(`generated_plugin_registrant.cc`, lines 16–29): the six registrar
lookups and registration calls, in the declared order. -/
def RegisterPlugins : List PluginCall :=
  [⟨"AudioplayersWindowsPlugin", "AudioplayersWindowsPluginRegisterWithRegistrar"⟩,
   ⟨"PasteboardPlugin", "PasteboardPluginRegisterWithRegistrar"⟩,
   ⟨"PermissionHandlerWindowsPlugin", "PermissionHandlerWindowsPluginRegisterWithRegistrar"⟩,
   ⟨"SystemTrayPlugin", "SystemTrayPluginRegisterWithRegistrar"⟩,
   ⟨"UrlLauncherWindows", "UrlLauncherWindowsRegisterWithRegistrar"⟩,
   ⟨"WindowsSingleInstancePlugin", "WindowsSingleInstancePluginRegisterWithRegistrar"⟩]

/-- Helper: whether `ctrl` holds a controller whose engine handle is
non-null (the guard tested by the `WM_CLOSE` branch). -/
def ctrlEngineOk : Option FlutterViewController → Bool
  | some c => c.engineValid
  | none => false

/-- The `start_minimized` loop finds the flag iff some argument is exactly
`"--start-minimized"`. -/
theorem start_minimized_eq_true_iff (args : List String) :
    start_minimized args = true ↔ ∃ a ∈ args, a = "--start-minimized" := by
  induction args with
  | nil => simp [start_minimized]
  | cons x xs ih =>
    by_cases h : x = "--start-minimized"
    · simp [start_minimized, h]
    · simp only [start_minimized]
      rw [if_neg h, ih]
      constructor
      · rintro ⟨a, ha, rfl⟩
        exact ⟨"--start-minimized", List.mem_cons_of_mem x ha, rfl⟩
      · rintro ⟨a, ha, rfl⟩
        rcases List.mem_cons.mp ha with h' | ha'
        · exact absurd h'.symm h
        · exact ⟨"--start-minimized", ha', rfl⟩

/-- C1: for every startup-argument sequence, when the first-frame callback
runs: if some argument equals `"--start-minimized"` exactly, `Show` is not
called and the window remains hidden; if no argument equals that token,
`Show` is called exactly once and the window becomes visible. -/
theorem firstFrame_show_iff_no_flag (args : List String) :
    ((∃ a ∈ args, a = "--start-minimized") →
      (firstFrameCallback args).count CBAction.showWindow = 0 ∧
      windowVisibleAfterFirstFrame args = false) ∧
    ((¬ ∃ a ∈ args, a = "--start-minimized") →
      (firstFrameCallback args).count CBAction.showWindow = 1 ∧
      windowVisibleAfterFirstFrame args = true) := by
  constructor
  · intro h
    have hsm : start_minimized args = true := (start_minimized_eq_true_iff args).2 h
    simp [firstFrameCallback, windowVisibleAfterFirstFrame, hsm]
  · intro h
    have hsm : start_minimized args = false := by
      cases hb : start_minimized args
      · rfl
      · exact absurd ((start_minimized_eq_true_iff args).1 hb) h
    simp [firstFrameCallback, windowVisibleAfterFirstFrame, hsm]

/-- Witness for C1 at two concrete argument lists: with the flag the
callback performs no show action and the window stays hidden; without it
the callback shows exactly once and the window is visible. -/
theorem firstFrame_show_iff_no_flag_witness :
    ((firstFrameCallback ["--start-minimized"]).count CBAction.showWindow = 0 ∧
      windowVisibleAfterFirstFrame ["--start-minimized"] = false) ∧
    ((firstFrameCallback ["--verbose"]).count CBAction.showWindow = 1 ∧
      windowVisibleAfterFirstFrame ["--verbose"] = true) :=
  ⟨(firstFrame_show_iff_no_flag ["--start-minimized"]).1
      ⟨"--start-minimized", by simp, rfl⟩,
   (firstFrame_show_iff_no_flag ["--verbose"]).2 (by decide)⟩

/-- C2: `OnCreate` returns `false` iff the base creation step fails or the
constructed controller's engine handle or view handle is null; otherwise
it returns `true`. -/
theorem onCreate_ret_false_iff (args : List String) (b e v : Bool) :
    (OnCreate args b e v).ret = false ↔
      (b = false ∨ e = false ∨ v = false) := by
  cases b <;> cases e <;> cases v <;> simp [OnCreate]

/-- C3 (code bug): with the controller reference empty (Uncreated or
Destroyed state), a `WM_FONTCHANGE` message is not a safe fall-through:
the code executes `flutter_controller_->engine()->ReloadSystemFonts()`
with no null check, dereferencing the null controller (undefined
behavior, modelled as `none`) — while every close-request message in the
same state does fall through to the base handler without touching the
engine. -/
theorem fontchange_null_controller_undefined :
    MessageHandler none none false WM_FONTCHANGE 0 = none ∧
    MessageHandler none none false WM_CLOSE 0 =
      some (0, [MHEvent.baseDefault]) := by
  constructor <;> rfl

/-- C4 counterexample: after base creation succeeds and the constructed
controller's engine handle is null, `OnCreate` returns `false` but the
stored controller reference is NOT empty — the claim that the controller
is discarded fails at this input. -/
theorem createfail_controller_retained :
    (OnCreate [] true false true).ret = false ∧
    (OnCreate [] true false true).flutter_controller ≠ none := by
  constructor
  · rfl
  · intro h
    simp [OnCreate] at h

/-- C4 (amended): when `OnCreate` finds the constructed controller's engine
or view handle null, it returns `false` and performs no further setup (no
plugin registration, child-content attachment, callback wiring, or
redraw), but the stored controller reference still holds the constructed
controller — it is not cleared. -/
theorem createfail_no_setup (args : List String) (e v : Bool)
    (h : e = false ∨ v = false) :
    (OnCreate args true e v).ret = false ∧
    (OnCreate args true e v).flutter_controller = some ⟨e, v⟩ ∧
    (OnCreate args true e v).steps =
      [CreateStep.baseCreate, CreateStep.getClientArea,
       CreateStep.constructController] := by
  rcases h with h | h
  · subst h; cases v <;> exact ⟨rfl, rfl, rfl⟩
  · subst h; cases e <;> exact ⟨rfl, rfl, rfl⟩

/-- Witness for C4's amended theorem at a concrete failed creation. -/
theorem createfail_no_setup_witness :
    ((false : Bool) = false ∨ (true : Bool) = false) ∧
    ((OnCreate [] true false true).ret = false ∧
     (OnCreate [] true false true).flutter_controller = some ⟨false, true⟩ ∧
     (OnCreate [] true false true).steps =
       [CreateStep.baseCreate, CreateStep.getClientArea,
        CreateStep.constructController]) :=
  ⟨Or.inl rfl, createfail_no_setup [] false true (Or.inl rfl)⟩

/-- C5 counterexample: a close request that the engine did not handle, with
Alt not held, produces ZERO `onWindowHidden` invocations when the stored
controller's engine handle is null — a state reachable after a failed
creation, as the second conjunct shows.  The claim's "exactly one
invocation" fails at this input. -/
theorem close_no_engine_counterexample :
    invokeCount (MessageHandler (some ⟨false, false⟩) none false WM_CLOSE 0)
      = 0 ∧
    (OnCreate [] true false false).flutter_controller = some ⟨false, false⟩ := by
  constructor <;> rfl

/-- C5 (amended): on a close-request message not handled by the engine's
top-level handler, exactly one invocation of `onWindowHidden` on channel
`gallevr/window` occurs — with no arguments and no result callback — when
Alt is not held AND the controller and its engine handle are non-null;
zero invocations occur when Alt is held or when the controller or engine
handle is absent; in every case the handler returns the base default
handler's result (the close falls through). -/
theorem close_invokes_onWindowHidden (ctrl : Option FlutterViewController)
    (altHeld : Bool) (base : Int) :
    MessageHandler ctrl none altHeld WM_CLOSE base =
      some (base,
        (if ctrl.isSome then [MHEvent.engineTopLevel] else []) ++
        (if !altHeld && ctrlEngineOk ctrl then
          [MHEvent.channelInvoke "gallevr/window" "onWindowHidden" false false]
         else []) ++ [MHEvent.baseDefault]) ∧
    invokeCount (MessageHandler ctrl none altHeld WM_CLOSE base) =
      (if !altHeld && ctrlEngineOk ctrl then 1 else 0) := by
  rcases ctrl with _ | ⟨e, v⟩ <;> cases altHeld <;>
    first
      | exact ⟨rfl, rfl⟩
      | cases e <;> exact ⟨rfl, rfl⟩

/-- C7: any message the engine's top-level handler reports as fully handled
returns the engine's result immediately: no font-change or close-request
handling, no base default handler. -/
theorem engine_handled_short_circuits (c : FlutterViewController)
    (r : Int) (altHeld : Bool) (message : Nat) (base : Int) :
    MessageHandler (some c) (some r) altHeld message base =
      some (r, [MHEvent.engineTopLevel]) := rfl

/-- C6: for every prior state of the controller reference (created,
partially created, or never created), `OnDestroy` performs base
destruction last, and at the moment base destruction runs the controller
reference is already empty: every release of the reference strictly
precedes the base window-destruction step. -/
theorem destroy_releases_before_base (ctrl : Option FlutterViewController) :
    ∃ pre, OnDestroy ctrl = pre ++ [DestroyStep.baseDestroy] ∧
      ctrlAfterSteps ctrl pre = none ∧
      DestroyStep.baseDestroy ∉ pre := by
  cases ctrl with
  | none => exact ⟨[], rfl, rfl, by simp⟩
  | some c =>
    refine ⟨[DestroyStep.resetController], rfl, rfl, by simp⟩

/-- C8: `RegisterPlugins` calls the six fixed registration entry points, in
the declared order, each with the registrar obtained by that plugin's
exact name; no call is duplicated; the steps `OnCreate` runs are
independent of the startup-argument values, and a successful creation
registers plugins exactly once. -/
theorem registerPlugins_each_once_fixed_order :
    RegisterPlugins.map PluginCall.entryPoint =
      ["AudioplayersWindowsPluginRegisterWithRegistrar",
       "PasteboardPluginRegisterWithRegistrar",
       "PermissionHandlerWindowsPluginRegisterWithRegistrar",
       "SystemTrayPluginRegisterWithRegistrar",
       "UrlLauncherWindowsRegisterWithRegistrar",
       "WindowsSingleInstancePluginRegisterWithRegistrar"] ∧
    RegisterPlugins.map PluginCall.registrarName =
      ["AudioplayersWindowsPlugin", "PasteboardPlugin",
       "PermissionHandlerWindowsPlugin", "SystemTrayPlugin",
       "UrlLauncherWindows", "WindowsSingleInstancePlugin"] ∧
    RegisterPlugins.Nodup ∧
    (∀ (args args' : List String) (b e v : Bool),
      (OnCreate args b e v).steps = (OnCreate args' b e v).steps) ∧
    (∀ args : List String,
      (OnCreate args true true true).steps.count CreateStep.registerPlugins
        = 1) := by
  refine ⟨rfl, rfl, by decide, ?_, ?_⟩
  · intro args args' b e v
    cases b <;> cases e <;> cases v <;> rfl
  · intro args
    rfl

/-- C9: in the close-request branch, when the controller reference is
empty or its engine handle is null and Alt is not held, zero channel
invocations occur and the message falls through to the base default
handler with no engine event of any kind. -/
theorem close_guard_requires_engine (ctrl : Option FlutterViewController)
    (base : Int)
    (h : ctrl = none ∨ ∃ c, ctrl = some c ∧ c.engineValid = false) :
    MessageHandler ctrl none false WM_CLOSE base =
      some (base,
        (if ctrl.isSome then [MHEvent.engineTopLevel] else []) ++
        [MHEvent.baseDefault]) ∧
    invokeCount (MessageHandler ctrl none false WM_CLOSE base) = 0 := by
  rcases h with rfl | ⟨⟨e, v⟩, rfl, he⟩
  · exact ⟨rfl, rfl⟩
  · have he' : e = false := he
    subst he'
    exact ⟨rfl, rfl⟩

/-- Witness for C9 at the empty controller reference. -/
theorem close_guard_requires_engine_witness :
    (MessageHandler none none false WM_CLOSE 0 =
      some (0, (if (none : Option FlutterViewController).isSome
                then [MHEvent.engineTopLevel] else []) ++
               [MHEvent.baseDefault])) ∧
    invokeCount (MessageHandler none none false WM_CLOSE 0) = 0 :=
  close_guard_requires_engine none 0 (Or.inl rfl)

/-- C10: after `OnDestroy` the controller reference is always empty; a
further destruction from the empty state performs only the base teardown
step and leaves the reference empty (idempotence). -/
theorem destroy_clears_and_idempotent (ctrl : Option FlutterViewController) :
    ctrlAfterSteps ctrl (OnDestroy ctrl) = none ∧
    OnDestroy (ctrlAfterSteps ctrl (OnDestroy ctrl)) =
      [DestroyStep.baseDestroy] ∧
    ctrlAfterSteps (ctrlAfterSteps ctrl (OnDestroy ctrl))
      (OnDestroy (ctrlAfterSteps ctrl (OnDestroy ctrl))) = none := by
  cases ctrl <;> exact ⟨rfl, rfl, rfl⟩
